import Mathlib

/-!
Shallow embedding of the BraTS inference client (BrainLesion/BraTS) and proofs
about its device negotiation, output sanity checking, input standardization,
scratch-directory lifecycle, backend conventions and remote PVC handling.

Python functions are embedded as pure Lean functions; environment probes (CUDA
availability, directory listings, `shutil` outcomes) become explicit
parameters, exceptions become `Except`, and filesystem side effects become
explicit event lists or association-list filesystem states.
-/

namespace BraTSSpec

/-! ## Device negotiation (`_handle_device_requests`, brats/core/docker.py) -/

/-- A docker GPU device request as built by `_handle_device_requests`:
`docker.types.DeviceRequest(device_ids=[cuda_devices], capabilities=[["gpu"]])`. -/
structure DeviceRequest where
  device_ids : List String
  capabilities : List (List String)
  deriving Repr, DecidableEq

/-- The exception `AlgorithmNotCPUCompatibleException` from brats/utils/exceptions.py,
carrying its message text. -/
structure AlgorithmNotCPUCompatibleException where
  message : String
  deriving Repr, DecidableEq

/-- Cause text selected in `_handle_device_requests` when `_is_cuda_available()` is false. -/
def noGpuCause : String := "No Cuda installation/ GPU was found and"

/-- Cause text selected in `_handle_device_requests` when CUDA is available but the
caller forced CPU execution. -/
def forcedCpuCause : String := "User tried to force CPU execution but"

/-- The fixed remainder of the `AlgorithmNotCPUCompatibleException` message. -/
def cpuIncompatibleTail : String := " the chosen algorithm is not CPU-compatible. Aborting..."

/-- `_handle_device_requests` (brats/core/docker.py, lines 100-127).  The result of
the environment probe `_is_cuda_available()` is passed in as `cuda_available`;
`algorithm.run_args.cpu_compatible` is passed in as `cpu_compatible`. -/
def handle_device_requests (cpu_compatible cuda_available : Bool)
    (cuda_devices : String) (force_cpu : Bool) :
    Except AlgorithmNotCPUCompatibleException (List DeviceRequest) :=
  if !cuda_available || force_cpu then
    if !cpu_compatible then
      Except.error
        ⟨(if cuda_available then forcedCpuCause else noGpuCause) ++ cpuIncompatibleTail⟩
    else
      Except.ok []
  else
    Except.ok [⟨[cuda_devices], [["gpu"]]⟩]

/-! ## PVC creation (`_create_namespaced_pvc`, brats/core/kubernetes.py) -/

/-- One Kubernetes API call issued by `_create_namespaced_pvc`, abstracted to the
two calls relevant to idempotence: listing the namespace's claims and creating a
claim with a given name. -/
inductive PvcApiCall where
  | listClaims : PvcApiCall
  | createClaim (name : String) : PvcApiCall
  deriving Repr, DecidableEq

/-- The scan loop of `_create_namespaced_pvc` over the listed claims: returns
whether some listed claim's `metadata.name` equals the requested name (the Python
loop returns from the function at the first match). -/
def pvc_name_listed : List String → String → Bool
  | [], _ => false
  | p :: rest, n => if p = n then true else pvc_name_listed rest n

/-- `_create_namespaced_pvc` (brats/core/kubernetes.py, lines 379-417), abstracted to
the sequence of namespaced API calls it issues.  `existing` is the list of claim
names returned by `list_namespaced_persistent_volume_claim`.  If a listed claim
matches, the function returns before `create_namespaced_persistent_volume_claim`;
otherwise exactly one creation call with the requested name is issued. -/
def create_namespaced_pvc (existing : List String) (pvc_name : String) : List PvcApiCall :=
  if pvc_name_listed existing pvc_name then [PvcApiCall.listClaims]
  else [PvcApiCall.listClaims, PvcApiCall.createClaim pvc_name]

theorem pvc_name_listed_iff (l : List String) (n : String) :
    pvc_name_listed l n = true ↔ n ∈ l := by
  induction l with
  | nil => simp [pvc_name_listed]
  | cons p rest ih =>
    by_cases h : p = n
    · subst h
      simp [pvc_name_listed]
    · simp [pvc_name_listed, h, ih]
      intro hn
      exact absurd hn.symm h

/-! ## Scratch directory lifecycle (`InferenceSetup` and `remove_tmp_folder`,
brats/utils/data_handling.py) -/

/-- A Python exception as it matters to `remove_tmp_folder`: the two caught classes
and everything else. -/
inductive PyError where
  | permissionError (msg : String) : PyError
  | fileNotFoundError (msg : String) : PyError
  | otherError (msg : String) : PyError
  deriving Repr, DecidableEq

/-- `remove_tmp_folder` (brats/utils/data_handling.py, lines 13-26).  The outcome of
`shutil.rmtree` on the folder is passed in (`none` = removal succeeded, `some e` =
it raised `e`).  Returns `ok warned` when the function returns normally (`warned`
records whether a cleanup warning was logged) and `error e` when the exception
escapes: only `PermissionError` and `FileNotFoundError` are caught and logged. -/
def remove_tmp_folder (rmtree_outcome : Option PyError) : Except PyError Bool :=
  match rmtree_outcome with
  | none => Except.ok false
  | some (PyError.permissionError _) => Except.ok true
  | some (PyError.fileNotFoundError _) => Except.ok true
  | some e => Except.error e

/-- Whether `remove_tmp_folder` swallows this `shutil.rmtree` outcome (success, or
one of the two caught exception classes). -/
def cleanup_swallowed : Option PyError → Bool
  | none => true
  | some (PyError.permissionError _) => true
  | some (PyError.fileNotFoundError _) => true
  | some (PyError.otherError _) => false

/-- Observable steps of the `InferenceSetup` context manager. -/
inductive SetupEvent where
  | createTmpDir (label : String) : SetupEvent
  | removeAttempt (label : String) : SetupEvent
  | warnCleanup (label : String) : SetupEvent
  deriving Repr, DecidableEq

/-- `InferenceSetup` (brats/utils/data_handling.py, lines 48-71) around a job body.
Two fresh temporary folders are created (prefixes `data_` and `output_`), the body
runs yielding `body` (normal return or raised exception), and the `finally` block
removes both folders via `remove_tmp_folder`, in order; an exception escaping a
removal supersedes the body's outcome (Python `finally` semantics), otherwise the
body's outcome is returned unchanged.  `rmData`/`rmOutput` are the `shutil.rmtree`
outcomes for the two folders. -/
def inference_setup_run {A : Type} (body : Except PyError A)
    (rmData rmOutput : Option PyError) : List SetupEvent × Except PyError A :=
  let created := [SetupEvent.createTmpDir "data_", SetupEvent.createTmpDir "output_"]
  match remove_tmp_folder rmData with
  | Except.error e => (created ++ [SetupEvent.removeAttempt "data_"], Except.error e)
  | Except.ok w1 =>
    let afterData := created ++ [SetupEvent.removeAttempt "data_"] ++
      (if w1 then [SetupEvent.warnCleanup "data_"] else [])
    match remove_tmp_folder rmOutput with
    | Except.error e => (afterData ++ [SetupEvent.removeAttempt "output_"], Except.error e)
    | Except.ok w2 =>
      (afterData ++ [SetupEvent.removeAttempt "output_"] ++
        (if w2 then [SetupEvent.warnCleanup "output_"] else []), body)

/-! ## Claim theorems: device negotiation, PVC, scratch lifecycle -/

/-- C1: device negotiation: with no CUDA, no forced CPU and a CPU-incompatible
algorithm it raises with the no-GPU cause; with CUDA available, CPU forced and a
CPU-incompatible algorithm it raises with the forced-CPU cause; with a
CPU-compatible algorithm both of those cases return an empty device-request list;
and with CUDA available and CPU not forced it returns a single GPU device request
bound to the caller-supplied device id string. -/
theorem handle_device_requests_spec (devices : String) :
    handle_device_requests false false devices false =
      Except.error ⟨noGpuCause ++ cpuIncompatibleTail⟩ ∧
    handle_device_requests false true devices true =
      Except.error ⟨forcedCpuCause ++ cpuIncompatibleTail⟩ ∧
    handle_device_requests true false devices false = Except.ok [] ∧
    handle_device_requests true true devices true = Except.ok [] ∧
    handle_device_requests true false devices true = Except.ok [] ∧
    (∀ cpu_compatible : Bool, handle_device_requests cpu_compatible true devices false =
      Except.ok [⟨[devices], [["gpu"]]⟩]) := by
  refine ⟨rfl, rfl, rfl, rfl, rfl, ?_⟩
  intro c
  cases c <;> rfl

/-- C10: for a CPU-incompatible algorithm with CUDA unavailable, the raised error
carries the no-GPU cause for every value of `force_cpu` (in particular when the
caller also forced CPU); more generally the message of a raised
CPU-incompatibility error is a function of CUDA availability alone, never of the
`force_cpu` flag. -/
theorem handle_device_requests_cause_depends_only_on_cuda (devices : String) :
    (∀ force_cpu : Bool, handle_device_requests false false devices force_cpu =
      Except.error ⟨noGpuCause ++ cpuIncompatibleTail⟩) ∧
    (∀ (cpu_compatible cuda fc fc' : Bool) (e e' : AlgorithmNotCPUCompatibleException),
      handle_device_requests cpu_compatible cuda devices fc = Except.error e →
      handle_device_requests cpu_compatible cuda devices fc' = Except.error e' →
      e = e') := by
  constructor
  · intro fc
    cases fc <;> rfl
  · intro c cuda fc fc' e e' h h'
    cases c <;> cases cuda <;> cases fc <;> cases fc' <;>
      simp [handle_device_requests] at h h' <;> simp [← h, ← h']

/-- Witness for C10: at `cuda_available = false`, `force_cpu = true` and
`force_cpu = false`, the raised errors coincide (both carry the no-GPU cause). -/
theorem handle_device_requests_cause_depends_only_on_cuda_witness :
    (⟨noGpuCause ++ cpuIncompatibleTail⟩ : AlgorithmNotCPUCompatibleException) =
      ⟨noGpuCause ++ cpuIncompatibleTail⟩ :=
  (handle_device_requests_cause_depends_only_on_cuda "0").2 false false true false _ _ rfl rfl

/-- C9: ensuring the persistent volume claim is idempotent: when the requested name
is already listed in the namespace no creation call is issued, and when it is not
listed exactly one creation call carrying that name is issued. -/
theorem create_namespaced_pvc_idempotent (existing : List String) (n : String) :
    (n ∈ existing → create_namespaced_pvc existing n = [PvcApiCall.listClaims]) ∧
    (n ∉ existing → create_namespaced_pvc existing n =
      [PvcApiCall.listClaims, PvcApiCall.createClaim n]) ∧
    (create_namespaced_pvc existing n).count (PvcApiCall.createClaim n) =
      (if n ∈ existing then 0 else 1) := by
  refine ⟨?_, ?_, ?_⟩
  · intro h
    simp [create_namespaced_pvc, (pvc_name_listed_iff existing n).mpr h]
  · intro h
    have : pvc_name_listed existing n = false := by
      cases hb : pvc_name_listed existing n
      · rfl
      · exact absurd ((pvc_name_listed_iff existing n).mp hb) h
    simp [create_namespaced_pvc, this]
  · by_cases h : n ∈ existing
    · simp [create_namespaced_pvc, (pvc_name_listed_iff existing n).mpr h, h, List.count_cons,
        List.count_nil]
    · have : pvc_name_listed existing n = false := by
        cases hb : pvc_name_listed existing n
        · rfl
        · exact absurd ((pvc_name_listed_iff existing n).mp hb) h
      simp [create_namespaced_pvc, this, h, List.count_cons, List.count_nil]

/-- Witness for C9: a listed name is skipped, an unlisted name is created once. -/
theorem create_namespaced_pvc_idempotent_witness :
    create_namespaced_pvc ["brats-pvc"] "brats-pvc" = [PvcApiCall.listClaims] ∧
    create_namespaced_pvc ["other-pvc"] "brats-pvc" =
      [PvcApiCall.listClaims, PvcApiCall.createClaim "brats-pvc"] :=
  ⟨(create_namespaced_pvc_idempotent ["brats-pvc"] "brats-pvc").1 (by simp),
   (create_namespaced_pvc_idempotent ["other-pvc"] "brats-pvc").2.1 (by simp)⟩

/-- C4: around any job body, the two scratch directories are created first and a
removal attempt happens for both after the body finishes, whether the body
returned normally or raised; when the removal outcomes are of the swallowed kinds
(success, permission error, folder already gone) the job's result is exactly the
body's result — a cleanup failure is only a warning, never raised to the caller. -/
theorem inference_setup_cleanup_spec {A : Type} (body : Except PyError A)
    (rmData rmOutput : Option PyError)
    (hd : cleanup_swallowed rmData = true) (ho : cleanup_swallowed rmOutput = true) :
    (inference_setup_run body rmData rmOutput).2 = body ∧
    (inference_setup_run body rmData rmOutput).1.take 2 =
      [SetupEvent.createTmpDir "data_", SetupEvent.createTmpDir "output_"] ∧
    SetupEvent.removeAttempt "data_" ∈ (inference_setup_run body rmData rmOutput).1 ∧
    SetupEvent.removeAttempt "output_" ∈ (inference_setup_run body rmData rmOutput).1 := by
  have hrem : ∀ o : Option PyError, cleanup_swallowed o = true →
      ∃ w : Bool, remove_tmp_folder o = Except.ok w := by
    intro o hswallow
    cases o with
    | none => exact ⟨false, rfl⟩
    | some e =>
      cases e with
      | permissionError m => exact ⟨true, rfl⟩
      | fileNotFoundError m => exact ⟨true, rfl⟩
      | otherError m => simp [cleanup_swallowed] at hswallow
  obtain ⟨w1, hw1⟩ := hrem rmData hd
  obtain ⟨w2, hw2⟩ := hrem rmOutput ho
  refine ⟨?_, ?_, ?_, ?_⟩ <;>
    simp [inference_setup_run, hw1, hw2]

/-- Witness for C4: a raising body with a permission-denied removal of the data
folder and an already-gone output folder still yields the body's own exception,
with both removal attempts recorded after the two creations. -/
theorem inference_setup_cleanup_spec_witness :
    (inference_setup_run (Except.error (PyError.otherError "container failed") :
        Except PyError Unit)
      (some (PyError.permissionError "denied")) (some (PyError.fileNotFoundError "gone"))).2 =
      Except.error (PyError.otherError "container failed") ∧
    SetupEvent.removeAttempt "output_" ∈
      (inference_setup_run (Except.error (PyError.otherError "container failed") :
          Except PyError Unit)
        (some (PyError.permissionError "denied"))
        (some (PyError.fileNotFoundError "gone"))).1 :=
  ⟨(inference_setup_cleanup_spec
      (Except.error (PyError.otherError "container failed") : Except PyError Unit)
      (some (PyError.permissionError "denied")) (some (PyError.fileNotFoundError "gone"))
      rfl rfl).1,
   (inference_setup_cleanup_spec
      (Except.error (PyError.otherError "container failed") : Except PyError Unit)
      (some (PyError.permissionError "denied")) (some (PyError.fileNotFoundError "gone"))
      rfl rfl).2.2.2⟩

/-! ## Output sanity check (`_sanity_check_output`, brats/core/docker.py) -/

/-- One file in the scratch output directory: its filename and its voxel data as
loaded by `nib.load(output).get_fdata()`. -/
structure OutputFile where
  name : String
  voxels : List Int
  deriving Repr, DecidableEq

/-- The failure path of `_sanity_check_output`: `logger.error` emits the captured
container output, then `BraTSContainerException` is raised with the count message. -/
structure SanityCheckFailure where
  logged_container_output : String
  message : String
  deriving Repr, DecidableEq

/-- Python's `str.startswith`, as a structural check on the character lists of the
two strings. -/
def str_startswith (s pre : String) : Bool :=
  pre.data.isPrefixOf s.data

/-- Python dict access `internal_external_name_map[key]`, on an insertion-ordered
association list with distinct keys. -/
def assocLookup : List (String × String) → String → Option String
  | [], _ => none
  | (k, v) :: rest, key => if k = key then some v else assocLookup rest key

/-- The subject-name resolution inside `_sanity_check_output`'s warning branch:
`name_key = [k for k in internal_external_name_map.keys() if output.name.startswith(k)]`,
then `name = internal_external_name_map[name_key[0]]` when non-empty, else `""`. -/
def resolve_subject_name (nameMap : Option (List (String × String)))
    (outputName : String) : String :=
  match nameMap with
  | none => ""
  | some m =>
    match (m.map Prod.fst).filter (fun k => str_startswith outputName k) with
    | [] => ""
    | k :: _ => (assocLookup m k).getD ""

/-- `np.count_nonzero` on the loaded voxel data. -/
def count_nonzero (voxels : List Int) : Nat :=
  (voxels.filter (fun v => v != 0)).length

/-- `_sanity_check_output` (brats/core/docker.py, lines 261-306).  `input_names` are
the entry names of the input directory (only those starting with "BraTS" are
counted), `outputs` the files of the output directory in iteration order.  On too
few outputs the captured container output is logged and the container exception is
raised; otherwise one warning per all-zero output file is emitted, attributed via
`resolve_subject_name`, and the function returns normally with those warnings. -/
def sanity_check_output (input_names : List String) (outputs : List OutputFile)
    (container_output : String) (nameMap : Option (List (String × String))) :
    Except SanityCheckFailure (List String) :=
  let inputs := input_names.filter (fun n => str_startswith n "BraTS")
  if outputs.length < inputs.length then
    Except.error ⟨container_output,
      "Not enough output files were created by the algorithm. Expected: " ++
        toString inputs.length ++ " Got: " ++ toString outputs.length ++
        ". Please check the logging output of the docker container for more information."⟩
  else
    Except.ok (outputs.filterMap (fun o =>
      if count_nonzero o.voxels == 0 then some (resolve_subject_name nameMap o.name)
      else none))

theorem filterMap_guard {α β : Type} (p : α → Bool) (f : α → β) (l : List α) :
    l.filterMap (fun a => if p a then some (f a) else none) = (l.filter p).map f := by
  induction l with
  | nil => rfl
  | cons a rest ih =>
    by_cases h : p a = true <;> simp [List.filterMap_cons, List.filter_cons, h, ih]

theorem count_nonzero_eq_zero_iff (voxels : List Int) :
    (count_nonzero voxels == 0) = voxels.all (fun v => v == 0) := by
  induction voxels with
  | nil => rfl
  | cons v rest ih =>
    by_cases h : v = 0 <;> simp_all [count_nonzero, List.filter_cons]

theorem assocLookup_mem (m : List (String × String)) (k : String)
    (hk : k ∈ m.map Prod.fst) : ∃ v, assocLookup m k = some v ∧ (k, v) ∈ m := by
  induction m with
  | nil => simp at hk
  | cons p rest ih =>
    by_cases h : p.1 = k
    · refine ⟨p.2, ?_, ?_⟩
      · simp [assocLookup, h]
      · rw [← h]
        exact List.mem_cons_self p rest
    · have hk' : k ∈ rest.map Prod.fst := by
        rcases List.mem_map.mp hk with ⟨q, hq, hq1⟩
        rcases List.mem_cons.mp hq with hq | hq
        · exact absurd (hq ▸ hq1) h
        · exact List.mem_map.mpr ⟨q, hq, hq1⟩
      rcases ih hk' with ⟨v, hv, hvm⟩
      exact ⟨v, by simp [assocLookup, h, hv], List.mem_cons_of_mem p hvm⟩

/-- C2: the sanity check raises the container-execution error (with the captured
log emitted) exactly when the output directory has strictly fewer files than the
"BraTS"-prefixed entries of the input directory; otherwise it returns normally
with exactly one warning per entirely-zero output file, and the warning is
attributed to an external subject name of the map whenever some map key prefixes
the output filename. -/
theorem sanity_check_output_spec (input_names : List String) (outputs : List OutputFile)
    (log : String) (nameMap : Option (List (String × String))) :
    (outputs.length < (input_names.filter (fun n => str_startswith n "BraTS")).length →
      ∃ msg, sanity_check_output input_names outputs log nameMap =
        Except.error ⟨log, msg⟩) ∧
    ((input_names.filter (fun n => str_startswith n "BraTS")).length ≤ outputs.length →
      sanity_check_output input_names outputs log nameMap =
        Except.ok ((outputs.filter (fun o => o.voxels.all (fun v => v == 0))).map
          (fun o => resolve_subject_name nameMap o.name)) ∧
      ∀ warnings, sanity_check_output input_names outputs log nameMap = Except.ok warnings →
        warnings.length =
          (outputs.filter (fun o => o.voxels.all (fun v => v == 0))).length) ∧
    (∀ m, nameMap = some m → ∀ o : OutputFile,
      (∃ p ∈ m, str_startswith o.name p.1 = true) →
      ∃ p ∈ m, str_startswith o.name p.1 = true ∧ resolve_subject_name nameMap o.name = p.2) := by
  refine ⟨?_, ?_, ?_⟩
  · intro h
    refine ⟨"Not enough output files were created by the algorithm. Expected: " ++
      toString (input_names.filter (fun n => str_startswith n "BraTS")).length ++
      " Got: " ++ toString outputs.length ++
      ". Please check the logging output of the docker container for more information.", ?_⟩
    simp only [sanity_check_output]
    rw [if_pos h]
  · intro h
    have hok : sanity_check_output input_names outputs log nameMap =
        Except.ok ((outputs.filter (fun o => o.voxels.all (fun v => v == 0))).map
          (fun o => resolve_subject_name nameMap o.name)) := by
      simp only [sanity_check_output, if_neg (Nat.not_lt.mpr h)]
      rw [show (fun o : OutputFile =>
          if count_nonzero o.voxels == 0 then some (resolve_subject_name nameMap o.name)
          else none) = (fun o : OutputFile =>
          if o.voxels.all (fun v => v == 0) then some (resolve_subject_name nameMap o.name)
          else none) from funext fun o => by rw [count_nonzero_eq_zero_iff]]
      rw [filterMap_guard]
    refine ⟨hok, ?_⟩
    intro warnings hw
    rw [hok] at hw
    cases hw
    simp
  · rintro m rfl o ⟨p, hpm, hps⟩
    have hne : (m.map Prod.fst).filter (fun k => str_startswith o.name k) ≠ [] := by
      intro hnil
      have := List.filter_eq_nil_iff.mp hnil p.1 (List.mem_map.mpr ⟨p, hpm, rfl⟩)
      exact this hps
    rcases hk : (m.map Prod.fst).filter (fun k => str_startswith o.name k) with _ | ⟨k, rest⟩
    · exact absurd hk hne
    · have hkmem : k ∈ (m.map Prod.fst).filter (fun k => str_startswith o.name k) := by
        rw [hk]; exact List.mem_cons_self k rest
      have hkkeys : k ∈ m.map Prod.fst := List.mem_of_mem_filter hkmem
      have hksw : str_startswith o.name k = true := List.of_mem_filter hkmem
      rcases assocLookup_mem m k hkkeys with ⟨v, hv, hvm⟩
      refine ⟨(k, v), hvm, hksw, ?_⟩
      simp [resolve_subject_name, hk, hv]

/-- Witness for C2: two canonical inputs with two outputs of which one is all-zero
return successfully with one warning attributed via the name map; two canonical
inputs with one output raise the error carrying the captured log. -/
theorem sanity_check_output_spec_witness :
    sanity_check_output ["BraTS-GLI-00000-000", "BraTS-GLI-00001-000"]
      [⟨"BraTS-GLI-00000-000.nii.gz", [0, 1]⟩, ⟨"BraTS-GLI-00001-000.nii.gz", [0, 0]⟩]
      "captured log" (some [("BraTS-GLI-00000-000", "A"), ("BraTS-GLI-00001-000", "B")]) =
      Except.ok ["B"] ∧
    (∃ msg, sanity_check_output ["BraTS-GLI-00000-000", "BraTS-GLI-00001-000"]
      [⟨"BraTS-GLI-00000-000.nii.gz", [0, 1]⟩] "captured log" none =
      Except.error ⟨"captured log", msg⟩) ∧
    (∃ p ∈ [("BraTS-GLI-00000-000", "A"), ("BraTS-GLI-00001-000", "B")],
      (str_startswith "BraTS-GLI-00001-000.nii.gz" p.1 = true) ∧
      resolve_subject_name
        (some [("BraTS-GLI-00000-000", "A"), ("BraTS-GLI-00001-000", "B")])
        "BraTS-GLI-00001-000.nii.gz" = p.2) := by
  refine ⟨?_, ?_, ?_⟩
  · have h := (sanity_check_output_spec ["BraTS-GLI-00000-000", "BraTS-GLI-00001-000"]
      [⟨"BraTS-GLI-00000-000.nii.gz", [0, 1]⟩, ⟨"BraTS-GLI-00001-000.nii.gz", [0, 0]⟩]
      "captured log"
      (some [("BraTS-GLI-00000-000", "A"), ("BraTS-GLI-00001-000", "B")])).2.1
      (by decide)
    rw [h.1]
    rfl
  · exact (sanity_check_output_spec ["BraTS-GLI-00000-000", "BraTS-GLI-00001-000"]
      [⟨"BraTS-GLI-00000-000.nii.gz", [0, 1]⟩] "captured log" none).1 (by decide)
  · exact (sanity_check_output_spec ["BraTS-GLI-00000-000", "BraTS-GLI-00001-000"]
      [⟨"BraTS-GLI-00000-000.nii.gz", [0, 1]⟩, ⟨"BraTS-GLI-00001-000.nii.gz", [0, 0]⟩]
      "captured log"
      (some [("BraTS-GLI-00000-000", "A"), ("BraTS-GLI-00001-000", "B")])).2.2
      _ rfl ⟨"BraTS-GLI-00001-000.nii.gz", [0, 0]⟩
      ⟨("BraTS-GLI-00001-000", "B"), by decide, by decide⟩

/-! ## Canonical subject ids (`input_name_schema.format(id=i)`)

Every catalog schema has the shape `prefix{id:0Wd}suffix` (e.g.
`BraTS-GLI-{id:05d}-000`), i.e. a fixed prefix, a zero-padded decimal id
field of minimum width `W`, and a fixed suffix. -/

/-- The character of one decimal digit. -/
def decDigitChar (d : Nat) : Char :=
  match d with
  | 0 => '0'
  | 1 => '1'
  | 2 => '2'
  | 3 => '3'
  | 4 => '4'
  | 5 => '5'
  | 6 => '6'
  | 7 => '7'
  | 8 => '8'
  | 9 => '9'
  | _ => '*'

/-- Decimal digit characters of `n`, most significant first, computed with a fuel
argument for structural recursion; `natDecChars` instantiates the fuel with `n`
itself, which always suffices. -/
def natDecCharsAux : Nat → Nat → List Char
  | 0, n => [decDigitChar (n % 10)]
  | fuel + 1, n =>
    if n < 10 then [decDigitChar n]
    else natDecCharsAux fuel (n / 10) ++ [decDigitChar (n % 10)]

/-- The decimal representation of `n` (Python's `str(n)`). -/
def natDecChars (n : Nat) : List Char := natDecCharsAux n n

/-- Left zero-padding of Python's `0{width}d` format spec. -/
def padZeros (width : Nat) (s : List Char) : List Char :=
  List.replicate (width - s.length) '0' ++ s

/-- A challenge's `input_name_schema`: fixed prefix, zero-pad width, fixed suffix. -/
structure NameSchema where
  pre : List Char
  width : Nat
  suf : List Char

/-- `input_name_schema.format(id=i)`. -/
def formatId (sch : NameSchema) (i : Nat) : String :=
  String.mk (sch.pre ++ padZeros sch.width (natDecChars i) ++ sch.suf)

/-- Decimal value of a digit string continuing from accumulator `acc`. -/
def decValFrom : Nat → List Char → Nat
  | acc, [] => acc
  | acc, c :: rest => decValFrom (10 * acc + (c.toNat - 48)) rest

theorem decValFrom_cons (acc : Nat) (c : Char) (rest : List Char) :
    decValFrom acc (c :: rest) = decValFrom (10 * acc + (c.toNat - 48)) rest := rfl

theorem decValFrom_append (acc : Nat) (l1 l2 : List Char) :
    decValFrom acc (l1 ++ l2) = decValFrom (decValFrom acc l1) l2 := by
  induction l1 generalizing acc with
  | nil => rfl
  | cons c rest ih =>
    rw [List.cons_append, decValFrom_cons, decValFrom_cons, ih]

theorem decDigitChar_toNat (d : Nat) (h : d < 10) : (decDigitChar d).toNat = 48 + d := by
  interval_cases d <;> decide

theorem natDecCharsAux_succ (fuel n : Nat) :
    natDecCharsAux (fuel + 1) n =
      (if n < 10 then [decDigitChar n]
       else natDecCharsAux fuel (n / 10) ++ [decDigitChar (n % 10)]) := rfl

theorem decValFrom_singleton (acc : Nat) (c : Char) :
    decValFrom acc [c] = 10 * acc + (c.toNat - 48) := rfl

theorem decValFrom_natDecCharsAux (fuel : Nat) : ∀ n acc, n ≤ fuel →
    decValFrom acc (natDecCharsAux fuel n) =
      acc * 10 ^ (natDecCharsAux fuel n).length + n := by
  induction fuel with
  | zero =>
    intro n acc h
    have hn : n = 0 := Nat.le_zero.mp h
    subst hn
    rw [show natDecCharsAux 0 0 = [decDigitChar (0 % 10)] from rfl,
      decValFrom_singleton, decDigitChar_toNat (0 % 10) (by omega)]
    simp
    omega
  | succ fuel ih =>
    intro n acc h
    by_cases hn : n < 10
    · rw [natDecCharsAux_succ, if_pos hn, decValFrom_singleton, decDigitChar_toNat n hn]
      simp
      omega
    · have hrec : n / 10 ≤ fuel := by
        have := Nat.div_lt_self (by omega : 0 < n) (by omega : 1 < 10)
        omega
      have hmod : n % 10 < 10 := Nat.mod_lt n (by omega)
      rw [natDecCharsAux_succ, if_neg hn, decValFrom_append, ih (n / 10) acc hrec,
        decValFrom_singleton, decDigitChar_toNat (n % 10) hmod, List.length_append]
      have hdm : 10 * (n / 10) + n % 10 = n := Nat.div_add_mod n 10
      rw [show ([decDigitChar (n % 10)] : List Char).length = 1 from rfl, pow_succ,
        ← Nat.mul_assoc]
      have he : 48 + n % 10 - 48 = n % 10 := by omega
      rw [he]
      generalize acc * 10 ^ (natDecCharsAux fuel (n / 10)).length = X
      omega

theorem decValFrom_replicate_zero (k : Nat) : ∀ acc,
    decValFrom acc (List.replicate k '0') = acc * 10 ^ k := by
  induction k with
  | zero =>
    intro acc
    rw [show List.replicate 0 '0' = ([] : List Char) from rfl,
      show decValFrom acc [] = acc from rfl, pow_zero, Nat.mul_one]
  | succ k ih =>
    intro acc
    have h0 : ('0' : Char).toNat - 48 = 0 := by decide
    rw [List.replicate_succ, decValFrom_cons, h0, Nat.add_zero, ih, pow_succ]
    ring

theorem decValFrom_padZeros_natDecChars (w n : Nat) :
    decValFrom 0 (padZeros w (natDecChars n)) = n := by
  rw [padZeros, decValFrom_append, decValFrom_replicate_zero, Nat.zero_mul]
  simpa using decValFrom_natDecCharsAux n n 0 le_rfl

/-- The id-schema template is injective in the id. -/
theorem formatId_inj (sch : NameSchema) (i j : Nat) (h : formatId sch i = formatId sch j) :
    i = j := by
  have hdata : sch.pre ++ (padZeros sch.width (natDecChars i) ++ sch.suf) =
      sch.pre ++ (padZeros sch.width (natDecChars j) ++ sch.suf) := by
    have := congrArg String.data h
    simpa [formatId, List.append_assoc] using this
  have hmid : padZeros sch.width (natDecChars i) = padZeros sch.width (natDecChars j) :=
    List.append_cancel_right (List.append_cancel_left hdata)
  have := congrArg (decValFrom 0) hmid
  rwa [decValFrom_padZeros_natDecChars, decValFrom_padZeros_natDecChars] at this

/-! ## Batch name map (`_standardize_batch_inputs`,
brats/core/segmentation_algorithms.py lines 101-138 and
brats/core/inpainting_algorithms.py lines 69-97) -/

/-- Python dict assignment `m[k] = v` on an insertion-ordered association list: an
existing key keeps its position and receives the new value; a new key is appended. -/
def dict_set (m : List (String × String)) (k v : String) : List (String × String) :=
  if m.any (fun p => p.1 == k) then
    m.map (fun p => if p.1 == k then (k, v) else p)
  else m ++ [(k, v)]

/-- The name-map construction loop shared by both `_standardize_batch_inputs`
implementations: for each discovered subject, in listing order,
`internal_name = input_name_schema.format(id=i)` then
`internal_external_name_map[internal_name] = subject.name`.  The per-subject file
standardization performed inside the same loop writes files but never touches the
map; it is modelled separately (`standardize_single_inputs` below). -/
def batch_name_map_loop (sch : NameSchema) :
    Nat → List (String × String) → List String → List (String × String)
  | _, m, [] => m
  | i, m, s :: rest => batch_name_map_loop sch (i + 1) (dict_set m (formatId sch i) s) rest

/-- The internal-to-external name map returned by `_standardize_batch_inputs` for
the discovered subject directory names `subjects`, in listing order. -/
def standardize_batch_inputs_map (sch : NameSchema) (subjects : List String) :
    List (String × String) :=
  batch_name_map_loop sch 0 [] subjects

/-- The expected shape of the map: one entry per subject, keyed by the template at
the subject's positional index. -/
def enum_name_map (sch : NameSchema) : Nat → List String → List (String × String)
  | _, [] => []
  | i, s :: rest => (formatId sch i, s) :: enum_name_map sch (i + 1) rest

theorem batch_name_map_loop_spec (sch : NameSchema) (subjects : List String) : ∀ (i : Nat)
    (m : List (String × String)),
    (∀ j, i ≤ j → ∀ p ∈ m, p.1 ≠ formatId sch j) →
    batch_name_map_loop sch i m subjects = m ++ enum_name_map sch i subjects := by
  induction subjects with
  | nil => intro i m _; simp [batch_name_map_loop, enum_name_map]
  | cons s rest ih =>
    intro i m hfresh
    have hnot : m.any (fun p => p.1 == formatId sch i) = false := by
      rw [List.any_eq_false]
      intro p hp
      simpa using hfresh i le_rfl p hp
    have hset : dict_set m (formatId sch i) s = m ++ [(formatId sch i, s)] := by
      simp [dict_set, hnot]
    have hfresh' : ∀ j, i + 1 ≤ j → ∀ p ∈ m ++ [(formatId sch i, s)],
        p.1 ≠ formatId sch j := by
      intro j hj p hp
      rcases List.mem_append.mp hp with hp | hp
      · exact hfresh j (by omega) p hp
      · have hps : p = (formatId sch i, s) := by simpa using hp
        subst hps
        intro hcontra
        have := formatId_inj sch i j hcontra
        omega
    calc batch_name_map_loop sch i m (s :: rest)
        = batch_name_map_loop sch (i + 1) (m ++ [(formatId sch i, s)]) rest := by
          rw [batch_name_map_loop, hset]
      _ = m ++ [(formatId sch i, s)] ++ enum_name_map sch (i + 1) rest :=
          ih (i + 1) (m ++ [(formatId sch i, s)]) hfresh'
      _ = m ++ enum_name_map sch i (s :: rest) := by
          rw [enum_name_map]
          simp

theorem enum_name_map_length (sch : NameSchema) (subjects : List String) : ∀ i,
    (enum_name_map sch i subjects).length = subjects.length := by
  induction subjects with
  | nil => intro i; rfl
  | cons s rest ih => intro i; simp [enum_name_map, ih]

theorem enum_name_map_keys (sch : NameSchema) (subjects : List String) : ∀ i,
    (enum_name_map sch i subjects).map Prod.fst =
      (List.range' i subjects.length).map (formatId sch) := by
  induction subjects with
  | nil => intro i; rfl
  | cons s rest ih => intro i; simp [enum_name_map, List.range', ih]

theorem enum_name_map_getElem (sch : NameSchema) (subjects : List String) : ∀ i k s,
    subjects[k]? = some s → (enum_name_map sch i subjects)[k]? = some (formatId sch (i + k), s) := by
  induction subjects with
  | nil => intro i k s h; simp at h
  | cons a rest ih =>
    intro i k s h
    cases k with
    | zero =>
      simp at h
      subst h
      simp [enum_name_map]
    | succ k =>
      simp at h
      have := ih (i + 1) k s h
      simpa [enum_name_map, Nat.add_assoc, Nat.add_comm 1 k] using this

/-- C5: the internal-to-external name map returned by batch standardization has
exactly one entry per discovered subject, its keys are the id-schema template
applied to the positional indices `0..N-1` in listing order, and the value at
index `i` is the name of the `i`-th subject directory. -/
theorem standardize_batch_inputs_map_spec (sch : NameSchema) (subjects : List String) :
    (standardize_batch_inputs_map sch subjects).length = subjects.length ∧
    (standardize_batch_inputs_map sch subjects).map Prod.fst =
      (List.range subjects.length).map (formatId sch) ∧
    ∀ i s, subjects[i]? = some s →
      (standardize_batch_inputs_map sch subjects)[i]? = some (formatId sch i, s) := by
  have hloop : standardize_batch_inputs_map sch subjects =
      enum_name_map sch 0 subjects := by
    have := batch_name_map_loop_spec sch subjects 0 []
      (by intro j _ p hp; simp at hp)
    simpa [standardize_batch_inputs_map] using this
  refine ⟨?_, ?_, ?_⟩
  · rw [hloop, enum_name_map_length]
  · rw [hloop, enum_name_map_keys, List.range_eq_range']
  · intro i s h
    rw [hloop]
    simpa using enum_name_map_getElem sch subjects 0 i s h

/-- Witness for C5: two subject directories `A`, `B` under the adult-glioma schema
yield the two-entry map with zero-padded indexed keys. -/
theorem standardize_batch_inputs_map_spec_witness :
    standardize_batch_inputs_map ⟨"BraTS-GLI-".data, 5, "-000".data⟩ ["A", "B"] =
      [("BraTS-GLI-00000-000", "A"), ("BraTS-GLI-00001-000", "B")] ∧
    (standardize_batch_inputs_map ⟨"BraTS-GLI-".data, 5, "-000".data⟩ ["A", "B"])[1]? =
      some ("BraTS-GLI-00001-000", "B") := by
  constructor
  · rfl
  · exact (standardize_batch_inputs_map_spec ⟨"BraTS-GLI-".data, 5, "-000".data⟩
      ["A", "B"]).2.2 1 "B" rfl

/-! ## Single-subject standardization (`_standardize_single_inputs`,
brats/core/segmentation_algorithms.py lines 53-99) -/

/-- A filesystem path, as a list of components. -/
abbrev FsPath := List String

/-- A filesystem: an association list from paths to file contents (numeric blob
ids); the most recent write for a path stands first. -/
abbrev FileSys := List (FsPath × Nat)

def fsRead : FileSys → FsPath → Option Nat
  | [], _ => none
  | (q, b) :: rest, p => if q = p then some b else fsRead rest p

/-- Writing (or overwriting) one file. -/
def fsWrite (fs : FileSys) (p : FsPath) (b : Nat) : FileSys := (p, b) :: fs

/-- `shutil.copy(src, dst)`: raises `FileNotFoundError` when the source does not
exist, otherwise writes the source's current content at the destination. -/
def shutil_copy (fs : FileSys) (src dst : FsPath) : Except PyError FileSys :=
  match fsRead fs src with
  | none => Except.error (PyError.fileNotFoundError "No such file or directory")
  | some b => Except.ok (fsWrite fs dst b)

/-- The standardized filename
`f"{subject_id}{subject_modality_separator}{modality}.nii.gz"`. -/
def std_file_name (subject_id sep modality : String) : String :=
  subject_id ++ sep ++ modality ++ ".nii.gz"

/-- `_standardize_single_inputs` (brats/core/segmentation_algorithms.py, lines
53-99; the variant in brats/core/missing_mri_algorithms.py lines 31-68 performs
the same copies): create `data_folder/subject_id/` and copy each supplied
modality's source file to `subject_id{separator}{modality}.nii.gz` inside it; a
missing source propagates `FileNotFoundError` after logging.  The `mkdir` is
implicit in the path-per-file filesystem model; the trailing
`input_sanity_check` only loads images and logs shape warnings. -/
def standardize_single_inputs (data_folder : FsPath) (subject_id sep : String) :
    FileSys → List (String × FsPath) → Except PyError FileSys
  | fs, [] => Except.ok fs
  | fs, (modality, src) :: rest =>
    match shutil_copy fs src
        (data_folder ++ [subject_id, std_file_name subject_id sep modality]) with
    | Except.error e => Except.error e
    | Except.ok fs2 => standardize_single_inputs data_folder subject_id sep fs2 rest

theorem std_file_name_inj (sid sep m m' : String)
    (h : std_file_name sid sep m = std_file_name sid sep m') : m = m' := by
  have hd : sid.data ++ (sep.data ++ (m.data ++ ".nii.gz".data)) =
      sid.data ++ (sep.data ++ (m'.data ++ ".nii.gz".data)) := by
    have := congrArg String.data h
    simpa [std_file_name, List.append_assoc] using this
  have hmid : m.data = m'.data :=
    List.append_cancel_right (List.append_cancel_left (List.append_cancel_left hd))
  cases m
  cases m'
  exact congrArg String.mk hmid

theorem fsRead_fsWrite (fs : FileSys) (p q : FsPath) (b : Nat) :
    fsRead (fsWrite fs p b) q = if p = q then some b else fsRead fs q := rfl

/-- C6: single-subject standardization succeeds when every supplied source exists
and (as in every real invocation) the user's source files are not themselves
standardized target paths; it then creates exactly one file per supplied modality
at `data_folder/subject_id/{subject_id}{sep}{modality}.nii.gz`, each carrying its
source's content, and leaves every other path of the filesystem unchanged — in
particular no other file appears in the subject folder. -/
theorem standardize_single_inputs_spec (root : FsPath) (sid sep : String) :
    ∀ (inputs : List (String × FsPath)) (fs : FileSys),
    (∀ p ∈ inputs, (fsRead fs p.2).isSome = true) →
    (inputs.map Prod.fst).Nodup →
    (∀ p ∈ inputs, ∀ m ∈ inputs.map Prod.fst,
      p.2 ≠ root ++ [sid, std_file_name sid sep m]) →
    ∃ fs2, standardize_single_inputs root sid sep fs inputs = Except.ok fs2 ∧
      (∀ p ∈ inputs,
        fsRead fs2 (root ++ [sid, std_file_name sid sep p.1]) = fsRead fs p.2) ∧
      (∀ q : FsPath, (∀ m ∈ inputs.map Prod.fst,
          q ≠ root ++ [sid, std_file_name sid sep m]) →
        fsRead fs2 q = fsRead fs q) := by
  intro inputs
  induction inputs with
  | nil =>
    intro fs _ _ _
    exact ⟨fs, rfl, by simp, by intro q _; rfl⟩
  | cons hd tl ih =>
    intro fs hsrc hnodup hdisj
    obtain ⟨m, src⟩ := hd
    have hsome : (fsRead fs src).isSome = true := hsrc (m, src) (List.mem_cons_self _ _)
    obtain ⟨b, hb⟩ := Option.isSome_iff_exists.mp hsome
    have hcopy : shutil_copy fs src (root ++ [sid, std_file_name sid sep m]) =
        Except.ok (fsWrite fs (root ++ [sid, std_file_name sid sep m]) b) := by
      simp [shutil_copy, hb]
    set fs2 := fsWrite fs (root ++ [sid, std_file_name sid sep m]) b with hfs2
    have hread2 : ∀ q : FsPath, q ≠ root ++ [sid, std_file_name sid sep m] →
        fsRead fs2 q = fsRead fs q := by
      intro q hq
      rw [hfs2, fsRead_fsWrite, if_neg (fun hc => hq hc.symm)]
    have hsrc2 : ∀ p ∈ tl, (fsRead fs2 p.2).isSome = true := by
      intro p hp
      rw [hread2 p.2 (hdisj p (List.mem_cons_of_mem _ hp) m (by simp))]
      exact hsrc p (List.mem_cons_of_mem _ hp)
    have hnodup2 : (tl.map Prod.fst).Nodup := by
      simpa using hnodup.of_cons
    have hdisj2 : ∀ p ∈ tl, ∀ m' ∈ tl.map Prod.fst,
        p.2 ≠ root ++ [sid, std_file_name sid sep m'] := by
      intro p hp m' hm'
      exact hdisj p (List.mem_cons_of_mem _ hp) m' (by simp [hm'])
    obtain ⟨fs3, hrun, htargets, hother⟩ := ih fs2 hsrc2 hnodup2 hdisj2
    have hmnot : m ∉ tl.map Prod.fst := by
      have := hnodup
      simp only [List.map_cons, List.nodup_cons] at this
      exact this.1
    refine ⟨fs3, ?_, ?_, ?_⟩
    · rw [show standardize_single_inputs root sid sep fs ((m, src) :: tl) =
        (match shutil_copy fs src (root ++ [sid, std_file_name sid sep m]) with
         | Except.error e => Except.error e
         | Except.ok fsx => standardize_single_inputs root sid sep fsx tl) from rfl]
      rw [hcopy]
      exact hrun
    · intro p hp
      rcases List.mem_cons.mp hp with hp | hp
      · subst hp
        have hq : ∀ m' ∈ tl.map Prod.fst,
            root ++ [sid, std_file_name sid sep m] ≠
              root ++ [sid, std_file_name sid sep m'] := by
          intro m' hm' hc
          have : std_file_name sid sep m = std_file_name sid sep m' := by
            have := List.append_cancel_left hc
            simpa using this
          exact hmnot (std_file_name_inj sid sep m m' this ▸ hm')
        rw [hother _ hq, hfs2, fsRead_fsWrite, if_pos rfl, hb]
      · rw [htargets p hp,
          hread2 p.2 (hdisj p (List.mem_cons_of_mem _ hp) m (by simp))]
    · intro q hq
      have hq2 : ∀ m' ∈ tl.map Prod.fst, q ≠ root ++ [sid, std_file_name sid sep m'] := by
        intro m' hm'
        exact hq m' (by simp [hm'])
      rw [hother q hq2, hread2 q (hq m (by simp))]

/-- Witness for C6: two modalities `t1c`, `t1n` with existing sources are copied
into the subject folder under canonical names and nothing else changes. -/
theorem standardize_single_inputs_spec_witness :
    ∃ fs2, standardize_single_inputs ["tmp"] "BraTS-GLI-00000-000" "-"
        [(["home", "a.nii.gz"], 1), (["home", "b.nii.gz"], 2)]
        [("t1c", ["home", "a.nii.gz"]), ("t1n", ["home", "b.nii.gz"])] =
      Except.ok fs2 ∧
      (∀ p ∈ [("t1c", ["home", "a.nii.gz"]), ("t1n", ["home", "b.nii.gz"])],
        fsRead fs2 (["tmp"] ++
            ["BraTS-GLI-00000-000", std_file_name "BraTS-GLI-00000-000" "-" p.1]) =
          fsRead [(["home", "a.nii.gz"], 1), (["home", "b.nii.gz"], 2)] p.2) ∧
      (∀ q : FsPath, (∀ m ∈ ["t1c", "t1n"],
          q ≠ ["tmp"] ++ ["BraTS-GLI-00000-000", std_file_name "BraTS-GLI-00000-000" "-" m]) →
        fsRead fs2 q = fsRead [(["home", "a.nii.gz"], 1), (["home", "b.nii.gz"], 2)] q) := by
  have h := standardize_single_inputs_spec ["tmp"] "BraTS-GLI-00000-000" "-"
    [("t1c", ["home", "a.nii.gz"]), ("t1n", ["home", "b.nii.gz"])]
    [(["home", "a.nii.gz"], 1), (["home", "b.nii.gz"], 2)]
    (by decide) (by decide) (by decide)
  simpa using h

/-! ## Missing-MRI modality-count rule (brats/core/missing_mri_algorithms.py) -/

/-- The `AssertionError` message of both arity checks. -/
def exactly3Msg : String :=
  "Exactly 3 inputs are required to perform synthesis of the missing modality"

/-- A subject folder discovered for missing-MRI batch inference: its directory name
and which of the four fixed modality files `{name}-{modality}.nii.gz` exist. -/
structure MRISubjectFolder where
  name : String
  hasT1c : Bool
  hasT1n : Bool
  hasT2f : Bool
  hasT2w : Bool
  deriving Repr, DecidableEq

/-- `valid_inputs` of `MissingMRI._standardize_batch_inputs`: the keys of the
`possible_inputs` dict (insertion order t1c, t1n, t2f, t2w) whose file exists. -/
def validModalities (s : MRISubjectFolder) : List String :=
  (if s.hasT1c then ["t1c"] else []) ++ (if s.hasT1n then ["t1n"] else []) ++
    (if s.hasT2f then ["t2f"] else []) ++ (if s.hasT2w then ["t2w"] else [])

/-- The `inputs` dict of `MissingMRI.infer_single` after filtering out `None`
values, in insertion order t1c, t1n, t2f, t2w. -/
def providedInputs (t1c t1n t2f t2w : Option FsPath) : List (String × FsPath) :=
  (match t1c with | some p => [("t1c", p)] | none => []) ++
    (match t1n with | some p => [("t1n", p)] | none => []) ++
    (match t2f with | some p => [("t2f", p)] | none => []) ++
    (match t2w with | some p => [("t2w", p)] | none => [])

/-- One scratch copy performed during standardization, tagged with the internal
subject id it belongs to and the standardized file name it creates. -/
structure CopyEvent where
  subject_id : String
  fileName : String
  deriving Repr, DecidableEq

/-- `MissingMRI.infer_single` (brats/core/missing_mri_algorithms.py, lines
111-148), up to the backend call: collect the provided modalities, raise
`AssertionError` unless exactly 3 were provided, and only then hand the inputs to
`_infer_single`, whose standardization copies the three files into the scratch
subject folder (the returned copy events).  On the error path the assertion fires
before `_infer_single`, so no filesystem work happens. -/
def missing_mri_infer_single (sid sep : String) (t1c t1n t2f t2w : Option FsPath) :
    Except String (List CopyEvent) :=
  let inputs := providedInputs t1c t1n t2f t2w
  if inputs.length = 3 then
    Except.ok (inputs.map (fun q => CopyEvent.mk sid (std_file_name sid sep q.1)))
  else
    Except.error exactly3Msg

/-- `MissingMRI._standardize_batch_inputs` (brats/core/missing_mri_algorithms.py,
lines 70-109): per discovered subject, in listing order, compute the internal name
from the schema, collect the existing modality files, assert that exactly 3 exist
*before* that subject's standardization copies, and recurse.  The first component
accumulates the copy events actually performed (on a failing run: those of the
subjects processed before the assertion fired); the second is the name map or the
assertion failure. -/
def missing_mri_standardize_batch (sch : NameSchema) (sep : String) :
    Nat → List MRISubjectFolder →
      List CopyEvent × Except String (List (String × String))
  | _, [] => ([], Except.ok [])
  | i, s :: rest =>
    let internal := formatId sch i
    let valid := validModalities s
    if valid.length = 3 then
      let next := missing_mri_standardize_batch sch sep (i + 1) rest
      (valid.map (fun m => CopyEvent.mk internal (std_file_name internal sep m)) ++ next.1,
       next.2.map (fun mm => (internal, s.name) :: mm))
    else ([], Except.error exactly3Msg)

theorem missing_mri_standardize_batch_cons (sch : NameSchema) (sep : String) (i : Nat)
    (s : MRISubjectFolder) (rest : List MRISubjectFolder) :
    missing_mri_standardize_batch sch sep i (s :: rest) =
      (if (validModalities s).length = 3 then
        ((validModalities s).map (fun m =>
            CopyEvent.mk (formatId sch i) (std_file_name (formatId sch i) sep m)) ++
          (missing_mri_standardize_batch sch sep (i + 1) rest).1,
         (missing_mri_standardize_batch sch sep (i + 1) rest).2.map
            (fun mm => (formatId sch i, s.name) :: mm))
      else ([], Except.error exactly3Msg)) := rfl

theorem missing_mri_batch_stops_at_bad_subject (sch : NameSchema) (sep : String)
    (s : MRISubjectFolder) (rest : List MRISubjectFolder)
    (hbad : (validModalities s).length ≠ 3) :
    ∀ (pre : List MRISubjectFolder) (i : Nat),
    (∀ p ∈ pre, (validModalities p).length = 3) →
    (missing_mri_standardize_batch sch sep i (pre ++ s :: rest)).2 =
        Except.error exactly3Msg ∧
      ∀ e ∈ (missing_mri_standardize_batch sch sep i (pre ++ s :: rest)).1,
        ∃ j, i ≤ j ∧ j < i + pre.length ∧ e.subject_id = formatId sch j := by
  intro pre
  induction pre with
  | nil =>
    intro i _
    rw [List.nil_append, missing_mri_standardize_batch_cons, if_neg hbad]
    exact ⟨rfl, by intro e he; simp at he⟩
  | cons p pre ih =>
    intro i hgood
    have hp : (validModalities p).length = 3 := hgood p (List.mem_cons_self _ _)
    have hrest : ∀ q ∈ pre, (validModalities q).length = 3 := fun q hq =>
      hgood q (List.mem_cons_of_mem _ hq)
    obtain ⟨hres, hev⟩ := ih (i + 1) hrest
    rw [List.cons_append, missing_mri_standardize_batch_cons, if_pos hp]
    constructor
    · simp only
      rw [hres]
      rfl
    · intro e he
      simp only at he
      rcases List.mem_append.mp he with he | he
      · rcases List.mem_map.mp he with ⟨m, _, hm⟩
        exact ⟨i, le_rfl, by simp, by rw [← hm]⟩
      · obtain ⟨j, hj1, hj2, hj3⟩ := hev e he
        exact ⟨j, by omega, by simp only [List.length_cons]; omega, hj3⟩

/-- C8: the cross-modality synthesis arity rule (exactly three of the four
modalities).  Single inference with a provided-modality count other than three
raises the `AssertionError` naming the expected arity before any filesystem work;
with exactly three it proceeds to standardization (one scratch copy per provided
modality).  Batch inference asserts per subject before that subject's copies: when
the subjects before position `k` are well-formed and the subject at `k` violates
the rule, the run fails with the same error and the copy trace contains no event
for that subject's internal id. -/
theorem missing_mri_modality_count_rule (sid sep : String)
    (t1c t1n t2f t2w : Option FsPath) (sch : NameSchema)
    (pre : List MRISubjectFolder) (s : MRISubjectFolder)
    (rest : List MRISubjectFolder) :
    ((providedInputs t1c t1n t2f t2w).length ≠ 3 →
      missing_mri_infer_single sid sep t1c t1n t2f t2w = Except.error exactly3Msg) ∧
    ((providedInputs t1c t1n t2f t2w).length = 3 →
      ∃ evs, missing_mri_infer_single sid sep t1c t1n t2f t2w = Except.ok evs ∧
        evs.length = 3 ∧
        evs = (providedInputs t1c t1n t2f t2w).map
          (fun q => CopyEvent.mk sid (std_file_name sid sep q.1))) ∧
    ((validModalities s).length ≠ 3 →
      (∀ p ∈ pre, (validModalities p).length = 3) →
      (missing_mri_standardize_batch sch sep 0 (pre ++ s :: rest)).2 =
          Except.error exactly3Msg ∧
        ∀ e ∈ (missing_mri_standardize_batch sch sep 0 (pre ++ s :: rest)).1,
          e.subject_id ≠ formatId sch pre.length) := by
  refine ⟨?_, ?_, ?_⟩
  · intro h
    simp [missing_mri_infer_single, h]
  · intro h
    refine ⟨_, by simp [missing_mri_infer_single, h], ?_, rfl⟩
    simp [h]
  · intro hbad hgood
    obtain ⟨hres, hev⟩ :=
      missing_mri_batch_stops_at_bad_subject sch sep s rest hbad pre 0 hgood
    refine ⟨hres, ?_⟩
    intro e he hcontra
    obtain ⟨j, _, hj2, hj3⟩ := hev e he
    have : j = pre.length := formatId_inj sch j pre.length (hj3.symm.trans hcontra)
    omega

/-- Witness for C8: four provided modalities raise the arity error; three provided
modalities standardize three files; a batch whose second subject has only two
modality files fails with the same error and performs no copy for that subject's
internal id. -/
theorem missing_mri_modality_count_rule_witness :
    missing_mri_infer_single "BraTS-GLI-00000-000" "-" (some ["a"]) (some ["b"])
        (some ["c"]) (some ["d"]) = Except.error exactly3Msg ∧
    (∃ evs, missing_mri_infer_single "BraTS-GLI-00000-000" "-" (some ["a"]) (some ["b"])
        (some ["c"]) none = Except.ok evs ∧
      evs.length = 3 ∧
      evs = (providedInputs (some ["a"]) (some ["b"]) (some ["c"]) none).map
        (fun q => CopyEvent.mk "BraTS-GLI-00000-000"
          (std_file_name "BraTS-GLI-00000-000" "-" q.1))) ∧
    ((missing_mri_standardize_batch ⟨"BraTS-GLI-".data, 5, "-000".data⟩ "-" 0
        [⟨"A", true, true, true, false⟩, ⟨"B", true, true, false, false⟩]).2 =
        Except.error exactly3Msg ∧
      ∀ e ∈ (missing_mri_standardize_batch ⟨"BraTS-GLI-".data, 5, "-000".data⟩ "-" 0
          [⟨"A", true, true, true, false⟩, ⟨"B", true, true, false, false⟩]).1,
        e.subject_id ≠ formatId ⟨"BraTS-GLI-".data, 5, "-000".data⟩ 1) := by
  refine ⟨?_, ?_, ?_⟩
  · exact (missing_mri_modality_count_rule "BraTS-GLI-00000-000" "-" (some ["a"])
      (some ["b"]) (some ["c"]) (some ["d"]) ⟨"BraTS-GLI-".data, 5, "-000".data⟩
      [] ⟨"A", true, true, true, false⟩ []).1 (by decide)
  · exact (missing_mri_modality_count_rule "BraTS-GLI-00000-000" "-" (some ["a"])
      (some ["b"]) (some ["c"]) none ⟨"BraTS-GLI-".data, 5, "-000".data⟩
      [] ⟨"A", true, true, true, false⟩ []).2.1 (by decide)
  · exact (missing_mri_modality_count_rule "BraTS-GLI-00000-000" "-" none none none none
      ⟨"BraTS-GLI-".data, 5, "-000".data⟩ [⟨"A", true, true, true, false⟩]
      ⟨"B", true, true, false, false⟩ []).2.2 (by decide) (by decide)

/-! ## Single-inference output relocation (`_infer_single` and
`_process_single_output`, brats/core/brats_algorithm.py) -/

/-- The `Task` enum (brats/constants.py). -/
inductive Task where
  | SEGMENTATION : Task
  | INPAINTING : Task
  | MISSING_MRI : Task
  deriving Repr, DecidableEq

/-- `OUTPUT_NAME_SCHEMA[Task.SEGMENTATION].format(subject_id=...)` (brats/constants.py). -/
def output_name_segmentation (subject_id : String) : String := subject_id ++ ".nii.gz"

/-- `OUTPUT_NAME_SCHEMA[Task.INPAINTING].format(subject_id=...)` (brats/constants.py);
the dict has no entry for `Task.MISSING_MRI`, which `_process_single_output`
handles by taking the first file of the scratch output folder instead. -/
def output_name_inpainting (subject_id : String) : String :=
  subject_id ++ "-t1n-inference.nii.gz"

/-- Filesystem steps of `_process_single_output`: creating the parent directories
of the caller's output path (`output_file.parent.mkdir(parents=True, exist_ok=True)`)
and moving one scratch output file onto that path. -/
inductive OutEvent where
  | mkdirParents : OutEvent
  | moveFile (name : String) : OutEvent
  deriving Repr, DecidableEq

/-- Locating a filename in the scratch output folder listing. -/
def dirLookup : List (String × Nat) → String → Option Nat
  | [], _ => none
  | (n, b) :: rest, name => if n = name then some b else dirLookup rest name

/-- The fixed-name branch of `_process_single_output`: parent directories are
created, then `shutil.move` relocates the named scratch file (raising when it does
not exist).  Returns the events performed and, on success, the content now at the
caller's output path. -/
def move_named_output (name : String) (tmp_outputs : List (String × Nat)) :
    List OutEvent × Except String Nat :=
  match dirLookup tmp_outputs name with
  | none => ([OutEvent.mkdirParents], Except.error "FileNotFoundError")
  | some b => ([OutEvent.mkdirParents, OutEvent.moveFile name], Except.ok b)

/-- `_process_single_output` (brats/core/brats_algorithm.py, lines 70-93):
missing-MRI takes the first file that appeared in the scratch output folder
(`iterdir().__next__()`, raising `StopIteration` when empty); segmentation and
inpainting use their `OUTPUT_NAME_SCHEMA` templates; then parent directories are
created and the file is moved to the caller's output path. -/
def process_single_output (task : Task) (tmp_outputs : List (String × Nat))
    (subject_id : String) : List OutEvent × Except String Nat :=
  match task with
  | Task.MISSING_MRI =>
    match tmp_outputs.head? with
    | none => ([], Except.error "StopIteration")
    | some (n, b) => ([OutEvent.mkdirParents, OutEvent.moveFile n], Except.ok b)
  | Task.SEGMENTATION => move_named_output (output_name_segmentation subject_id) tmp_outputs
  | Task.INPAINTING => move_named_output (output_name_inpainting subject_id) tmp_outputs

/-- `_infer_single` (brats/core/brats_algorithm.py, lines 136-174) from the
backend call onward: `backend` is the outcome of `run_container` (which already
includes the output sanity check) — on success the scratch output folder listing,
on failure the raised container exception.  `init_out` is the content at the
caller's requested output path before the call; the triple returned is the event
list, the job outcome, and the content at the caller's output path afterwards.
When the backend raises, `_process_single_output` is never reached, so the
caller's path is untouched. -/
def infer_single_run (task : Task) (subject_id : String)
    (backend : Except String (List (String × Nat))) (init_out : Option Nat) :
    List OutEvent × Except String Unit × Option Nat :=
  match backend with
  | Except.error e => ([], Except.error e, init_out)
  | Except.ok outs =>
    match process_single_output task outs subject_id with
    | (evs, Except.error m) => (evs, Except.error m, init_out)
    | (evs, Except.ok b) => (evs, Except.ok (), some b)

/-- C3: after a successful backend run the orchestrator locates the one expected
output by the task's template (`{subject_id}.nii.gz` for segmentation,
`{subject_id}-t1n-inference.nii.gz` for inpainting, the first file that appeared
for cross-modality synthesis), creates parent directories, and moves it to the
caller's requested path, whose content afterwards is that file's content; when the
backend raises, the error propagates and the caller's path keeps its prior
content — no file is ever placed there. -/
theorem infer_single_output_relocation (task : Task) (sid : String)
    (outs : List (String × Nat)) (init_out : Option Nat) (e : String) (b : Nat) :
    (infer_single_run task sid (Except.error e) init_out =
      ([], Except.error e, init_out)) ∧
    (task = Task.SEGMENTATION → dirLookup outs (sid ++ ".nii.gz") = some b →
      infer_single_run task sid (Except.ok outs) init_out =
        ([OutEvent.mkdirParents, OutEvent.moveFile (sid ++ ".nii.gz")],
         Except.ok (), some b)) ∧
    (task = Task.INPAINTING →
      dirLookup outs (sid ++ "-t1n-inference.nii.gz") = some b →
      infer_single_run task sid (Except.ok outs) init_out =
        ([OutEvent.mkdirParents, OutEvent.moveFile (sid ++ "-t1n-inference.nii.gz")],
         Except.ok (), some b)) ∧
    (task = Task.MISSING_MRI → ∀ n rest, outs = (n, b) :: rest →
      infer_single_run task sid (Except.ok outs) init_out =
        ([OutEvent.mkdirParents, OutEvent.moveFile n], Except.ok (), some b)) := by
  refine ⟨rfl, ?_, ?_, ?_⟩
  · rintro rfl hl
    simp [infer_single_run, process_single_output, move_named_output,
      output_name_segmentation, hl]
  · rintro rfl hl
    simp [infer_single_run, process_single_output, move_named_output,
      output_name_inpainting, hl]
  · rintro rfl n rest rfl
    simp [infer_single_run, process_single_output]

/-- Witness for C3: a segmentation run whose scratch folder holds the canonical
file moves it into place; an inpainting run and a missing-MRI run likewise. -/
theorem infer_single_output_relocation_witness :
    infer_single_run Task.SEGMENTATION "BraTS-GLI-00000-000"
        (Except.ok [("BraTS-GLI-00000-000.nii.gz", 7)]) none =
      ([OutEvent.mkdirParents, OutEvent.moveFile "BraTS-GLI-00000-000.nii.gz"],
       Except.ok (), some 7) ∧
    infer_single_run Task.MISSING_MRI "BraTS-GLI-00000-000"
        (Except.ok [("BraTS-GLI-00000-000-t2f.nii.gz", 9)]) none =
      ([OutEvent.mkdirParents, OutEvent.moveFile "BraTS-GLI-00000-000-t2f.nii.gz"],
       Except.ok (), some 9) ∧
    infer_single_run Task.INPAINTING "BraTS-GLI-00000-000"
        (Except.error "Container finished with an error. See logs above for details.")
        none =
      ([], Except.error "Container finished with an error. See logs above for details.",
       none) := by
  refine ⟨?_, ?_, ?_⟩
  · exact (infer_single_output_relocation Task.SEGMENTATION "BraTS-GLI-00000-000"
      [("BraTS-GLI-00000-000.nii.gz", 7)] none "" 7).2.1 rfl (by decide)
  · exact (infer_single_output_relocation Task.MISSING_MRI "BraTS-GLI-00000-000"
      [("BraTS-GLI-00000-000-t2f.nii.gz", 9)] none "" 9).2.2.2 rfl
      "BraTS-GLI-00000-000-t2f.nii.gz" [] rfl
  · exact (infer_single_output_relocation Task.INPAINTING "BraTS-GLI-00000-000" [] none
      "Container finished with an error. See logs above for details." 0).1

/-! ## Backend volume/argument conventions by submission year -/

/-- One docker volume binding: host path, bind target, mode. -/
structure VolumeBind where
  host : FsPath
  bind : String
  mode : String
  deriving Repr, DecidableEq

/-- The legacy four-slot mlcube layout — `_get_volume_mappings_mlcube` (present in
the snapshot's brats/core/docker.py, lines 149-176, under its earlier name
`_get_volume_mappings`): data, additional files, output and the static parameters
directory bound to `/mlcube_io0..3`, mode rw. -/
def get_volume_mappings_mlcube (data_path additional_files_path output_path
    parameters_path : FsPath) : List VolumeBind :=
  [⟨data_path, "/mlcube_io0", "rw"⟩, ⟨additional_files_path, "/mlcube_io1", "rw"⟩,
   ⟨output_path, "/mlcube_io2", "rw"⟩, ⟨parameters_path, "/mlcube_io3", "rw"⟩]

/-- Modelled from the spec: `_get_volume_mappings_docker_only`, the
newer-generation convention of two plain bind mounts (input, output).  The
function itself is missing from the source snapshot (whose docker.py predates
it); its unit tests (tests/core/test_docker.py) and its caller
brats/core/singularity.py fix the mapping `data -> /input`, `output -> /output`,
mode rw. -/
def get_volume_mappings_docker_only (data_path output_path : FsPath) : List VolumeBind :=
  [⟨data_path, "/input", "rw"⟩, ⟨output_path, "/output", "rw"⟩]

/-- A chosen volume layout together with the container argument vector. -/
structure ContainerInvocation where
  volumes : List VolumeBind
  args : List String
  deriving Repr, DecidableEq

/-- Modelled from the spec: the year dispatch of the Direct Container Backend's
`run_container` — missing from the snapshot's brats/core/docker.py (lines
348-417), which predates it and always uses the mlcube convention.  The spec, the
backend's own unit tests (`test_run_container_mlcube` with a year-2024 descriptor,
`test_run_container_docker_only` with a year-2025 one) and the sibling dispatch in
brats/core/singularity.py (present in the snapshot, lines 180-193) fix the
selection: `meta.year <= 2024` uses the four-slot mlcube layout with the `infer`
sub-command prefix; later years use the two plain bind mounts with no prefix. -/
def docker_run_invocation (year : Nat) (data_path additional_files_path output_path
    parameters_path : FsPath) (command_args : List String) : ContainerInvocation :=
  if year ≤ 2024 then
    ⟨get_volume_mappings_mlcube data_path additional_files_path output_path
        parameters_path,
     "infer" :: command_args⟩
  else
    ⟨get_volume_mappings_docker_only data_path output_path, command_args⟩

/-- The year dispatch of the Sandboxed (Singularity) backend's `run_container`
(brats/core/singularity.py, lines 180-193, present in the snapshot): the same two
volume conventions; for legacy years the container args are
`["infer", *command_args]`, for newer years no args are passed (`None`). -/
def singularity_run_invocation (year : Nat) (data_path additional_files_path
    output_path parameters_path : FsPath) (command_args : List String) :
    List VolumeBind × Option (List String) :=
  if year ≤ 2024 then
    (get_volume_mappings_mlcube data_path additional_files_path output_path
        parameters_path,
     some ("infer" :: command_args))
  else
    (get_volume_mappings_docker_only data_path output_path, none)

/-- C7: the Direct backend's volume/argument convention is selected by the
descriptor's year field: newer-generation descriptors (year 2025 onward) get the
two plain input/output bind mounts and no `infer` sub-command prefix, while
legacy-year descriptors get the four-slot mlcube layout with the `infer` prefix;
the Sandboxed backend dispatches the same way. -/
theorem run_container_year_convention (year : Nat) (data af out params : FsPath)
    (args : List String) :
    (2025 ≤ year →
      docker_run_invocation year data af out params args =
        ⟨[⟨data, "/input", "rw"⟩, ⟨out, "/output", "rw"⟩], args⟩ ∧
      singularity_run_invocation year data af out params args =
        ([⟨data, "/input", "rw"⟩, ⟨out, "/output", "rw"⟩], none)) ∧
    (year ≤ 2024 →
      docker_run_invocation year data af out params args =
        ⟨[⟨data, "/mlcube_io0", "rw"⟩, ⟨af, "/mlcube_io1", "rw"⟩,
          ⟨out, "/mlcube_io2", "rw"⟩, ⟨params, "/mlcube_io3", "rw"⟩],
         "infer" :: args⟩ ∧
      singularity_run_invocation year data af out params args =
        ([⟨data, "/mlcube_io0", "rw"⟩, ⟨af, "/mlcube_io1", "rw"⟩,
          ⟨out, "/mlcube_io2", "rw"⟩, ⟨params, "/mlcube_io3", "rw"⟩],
         some ("infer" :: args))) := by
  constructor
  · intro h
    have hy : ¬ year ≤ 2024 := by omega
    exact ⟨by simp [docker_run_invocation, get_volume_mappings_docker_only, hy],
      by simp [singularity_run_invocation, get_volume_mappings_docker_only, hy]⟩
  · intro h
    exact ⟨by simp [docker_run_invocation, get_volume_mappings_mlcube, h],
      by simp [singularity_run_invocation, get_volume_mappings_mlcube, h]⟩

/-- Witness for C7: a 2025 descriptor gets the plain convention, a 2023 descriptor
the mlcube convention with the `infer` prefix. -/
theorem run_container_year_convention_witness :
    docker_run_invocation 2025 ["in"] ["af"] ["out"] ["par"]
        ["--data_path=/mlcube_io0"] =
      ⟨[⟨["in"], "/input", "rw"⟩, ⟨["out"], "/output", "rw"⟩],
       ["--data_path=/mlcube_io0"]⟩ ∧
    docker_run_invocation 2023 ["in"] ["af"] ["out"] ["par"]
        ["--data_path=/mlcube_io0"] =
      ⟨[⟨["in"], "/mlcube_io0", "rw"⟩, ⟨["af"], "/mlcube_io1", "rw"⟩,
        ⟨["out"], "/mlcube_io2", "rw"⟩, ⟨["par"], "/mlcube_io3", "rw"⟩],
       ["infer", "--data_path=/mlcube_io0"]⟩ ∧
    singularity_run_invocation 2025 ["in"] ["af"] ["out"] ["par"]
        ["--data_path=/mlcube_io0"] =
      ([⟨["in"], "/input", "rw"⟩, ⟨["out"], "/output", "rw"⟩], none) := by
  refine ⟨?_, ?_, ?_⟩
  · exact ((run_container_year_convention 2025 ["in"] ["af"] ["out"] ["par"]
      ["--data_path=/mlcube_io0"]).1 (by omega)).1
  · exact ((run_container_year_convention 2023 ["in"] ["af"] ["out"] ["par"]
      ["--data_path=/mlcube_io0"]).2 (by omega)).1
  · exact ((run_container_year_convention 2025 ["in"] ["af"] ["out"] ["par"]
      ["--data_path=/mlcube_io0"]).1 (by omega)).2

end BraTSSpec
